import Mathlib

/-!
A shallow embedding of the City Facts Resolver from `src/mcp_agent/agent.py`:
the `CITY_DATA` table and the two tool functions `get_weather` and
`get_current_time`, together with proofs of their specified properties.

Modelling conventions:
* Python dictionaries returned by the tools are association lists
  `List (String × String)`; the source always returns a two-entry literal.
* `str.lower` is modelled characterwise by `Char.toLower` (the ASCII case
  mapping); `str.replace " " ""` removes every space character.
* The system timezone database and clock (`ZoneInfo`, `datetime.now`) are an
  oracle `Clock`: given an IANA timezone identifier it either yields the
  current local hour and minute or fails with an exception message, covering
  both failure points inside the source's `try` block.  `get_weather` also
  receives the oracle, so that its independence from it is expressible; its
  body never consults it, exactly as in the source.
-/

/-- One value of the `CITY_DATA` table: display name, canned weather report
and IANA timezone identifier. -/
structure CityRecord where
  display_name : String
  weather_report : String
  timezone : String
  deriving DecidableEq

/-- The type of the `CITY_DATA` table: keys paired with records. -/
abbrev CityTable := List (String × CityRecord)

/-- The module-level `CITY_DATA` literal from `agent.py`. -/
def CITY_DATA : CityTable :=
  [ ("newyork",
      ⟨"New York",
       "The weather in New York is sunny with a temperature of 45°F.",
       "America/New_York"⟩),
    ("london",
      ⟨"London",
       "It\x27s cloudy in London with a temperature of 55°F.",
       "Europe/London"⟩),
    ("tokyo",
      ⟨"Tokyo",
       "Tokyo is experiencing light rain and a temperature of 72°F.",
       "Asia/Tokyo"⟩) ]

/-- Python `s.lower()`, modelled characterwise by the ASCII case mapping. -/
def pyLower (s : String) : String :=
  ⟨s.data.map Char.toLower⟩

/-- Python `s.replace(" ", "")`: remove every space character. -/
def removeSpaces (s : String) : String :=
  ⟨s.data.filter (fun c => c != ' ')⟩

/-- The normalization `city.lower().replace(" ", "")` performed by both
tool functions. -/
def normalize_city (city : String) : String :=
  removeSpaces (pyLower city)

/-- Python `CITY_DATA.get(k)`: `some` of the first record stored under `k`,
`none` when the key is absent.  The source's walrus-`if` tests the result
for truthiness; a missing key gives `None` (falsy) and every stored record
is a non-empty dict (truthy), so the test coincides with this `Option`. -/
def cityGet (t : CityTable) (k : String) : Option CityRecord :=
  (t.find? (fun p => p.1 == k)).map (fun p => p.2)

/-- The dictionaries returned by the tool functions. -/
abbrev PyDict := List (String × String)

/-- The external timezone database and system clock, as seen through the
source's `try` block: for a timezone identifier, either the current local
`(hour, minute)` or the message of the raised exception. -/
structure Clock where
  nowIn : String → Except String (Nat × Nat)

/-- `%02d`-style zero padding to two digits. -/
def pad2 (n : Nat) : String :=
  if n < 10 then "0" ++ toString n else toString n

/-- `now.strftime("%H:%M")`: the 24-hour `HH:MM` rendering. -/
def fmtHM (h m : Nat) : String :=
  pad2 h ++ ":" ++ pad2 m

/-- `get_weather` parametrized by the table it reads.  The `env` oracle is
passed but, as in the source, never consulted. -/
def get_weather_t (t : CityTable) (_env : Clock) (city : String) : PyDict :=
  let city_normalized := normalize_city city
  match cityGet t city_normalized with
  | some city_data =>
      [("status", "success"), ("report", city_data.weather_report)]
  | none =>
      [("status", "error"),
       ("error_message",
        "Sorry, I don\x27t have weather information for \x27" ++ city ++ "\x27.")]

/-- The tool function `get_weather` from `agent.py`. -/
def get_weather (env : Clock) (city : String) : PyDict :=
  get_weather_t CITY_DATA env city

/-- `get_current_time` parametrized by the table it reads. -/
def get_current_time_t (t : CityTable) (env : Clock) (city : String) : PyDict :=
  let city_normalized := normalize_city city
  match cityGet t city_normalized with
  | none =>
      [("status", "error"),
       ("error_message",
        "Sorry, I don\x27t have timezone information for \x27" ++ city ++ "\x27.")]
  | some city_data =>
      match env.nowIn city_data.timezone with
      | Except.ok (h, m) =>
          [("status", "success"),
           ("report",
            "The current time in " ++ city_data.display_name ++ " is " ++
              fmtHM h m ++ ".")]
      | Except.error e =>
          [("status", "error"),
           ("error_message",
            "Could not retrieve time for \x27" ++ city ++ "\x27. Reason: " ++ e)]

/-- The tool function `get_current_time` from `agent.py`. -/
def get_current_time (env : Clock) (city : String) : PyDict :=
  get_current_time_t CITY_DATA env city

/-- One tool invocation, as dispatched by the agent runtime. -/
inductive ToolCall where
  | weather (env : Clock) (city : String)
  | time (env : Clock) (city : String)

/-- Execute one tool call against the current table state, returning the
table afterwards together with the produced dictionary.  Neither function
assigns to `CITY_DATA`, so the table is returned unchanged. -/
def callStep (t : CityTable) : ToolCall → CityTable × PyDict
  | ToolCall.weather env city => (t, get_weather_t t env city)
  | ToolCall.time env city => (t, get_current_time_t t env city)

/-- Run a sequence of tool calls, threading the table state. -/
def runCalls (t : CityTable) : List ToolCall → CityTable
  | [] => t
  | c :: cs => runCalls (callStep t c).1 cs

/-- A concrete working clock: every timezone resolves, the time is 09:05. -/
def tickClock : Clock :=
  ⟨fun _ => Except.ok (9, 5)⟩

/-- A concrete failing clock: timezone resolution always raises. -/
def downClock : Clock :=
  ⟨fun _ => Except.error "clock unavailable"⟩

/-! ## Helper lemmas -/

/-- An error dictionary is never equal to a success dictionary: the values
stored under `"status"` differ. -/
lemma err_ne_succ (m r : String) :
    ([("status", "error"), ("error_message", m)] : PyDict) ≠
      [("status", "success"), ("report", r)] := by
  intro h
  injection h with h1 _
  injection h1 with _ h2
  exact absurd h2 (by decide)

/-- The timezone-failure message of `get_current_time` never coincides with
its lookup-miss message, whatever the input and the exception text: the two
messages start with different characters. -/
lemma could_ne_miss_msg (city e : String) :
    "Could not retrieve time for \x27" ++ city ++ "\x27. Reason: " ++ e ≠
      "Sorry, I don\x27t have timezone information for \x27" ++ city ++ "\x27." := by
  intro h
  have h2 := congrArg (fun s => s.data.head?) h
  simp only at h2
  rw [show ("Could not retrieve time for \x27" ++ city ++ "\x27. Reason: " ++
        e).data.head? = some 'C' from rfl] at h2
  rw [show ("Sorry, I don\x27t have timezone information for \x27" ++ city ++
        "\x27.").data.head? = some 'S' from rfl] at h2
  exact absurd (Option.some.inj h2) (by decide)

/-- On a lookup miss both tools return the error dictionary whose message
embeds the original, non-normalized input text verbatim. -/
lemma miss_both (env : Clock) (city : String)
    (h : cityGet CITY_DATA (normalize_city city) = none) :
    (∃ a b, get_weather env city =
      [("status", "error"), ("error_message", a ++ city ++ b)]) ∧
    (∃ a b, get_current_time env city =
      [("status", "error"), ("error_message", a ++ city ++ b)]) := by
  refine ⟨⟨"Sorry, I don\x27t have weather information for \x27", "\x27.", ?_⟩,
          ⟨"Sorry, I don\x27t have timezone information for \x27", "\x27.", ?_⟩⟩ <;>
    simp [get_weather, get_weather_t, get_current_time, get_current_time_t, h]

/-- Lowercasing then dropping spaces annihilates a list of spaces. -/
lemma filter_lower_spaces : ∀ l : List Char, (∀ c ∈ l, c = ' ') →
    (l.map Char.toLower).filter (fun c => c != ' ') = []
  | [], _ => rfl
  | c :: l, hsp => by
      have hc : c = ' ' := hsp c (List.mem_cons_self c l)
      have hl := filter_lower_spaces l (fun x hx => hsp x (List.mem_cons_of_mem c hx))
      simp [hc, hl]

/-- Normalization sends an all-space string to the empty string. -/
lemma all_spaces_normalize (city : String) (hsp : ∀ c ∈ city.data, c = ' ') :
    normalize_city city = "" := by
  show removeSpaces (pyLower city) = ""
  simp [removeSpaces, pyLower, filter_lower_spaces city.data hsp]

/-- A tool-call sequence leaves any table state unchanged. -/
lemma runCalls_eq (t : CityTable) (cs : List ToolCall) : runCalls t cs = t := by
  induction cs with
  | nil => rfl
  | cons c cs ih => cases c <;> simpa [runCalls, callStep] using ih

/-! ## Claim theorems -/

/-- Claim C1: for every input whose normalized form is a table key,
`get_weather` returns the success dictionary whose `"report"` value is
exactly the `weather_report` string stored in that record, independent of
the input's casing and spaces (normalization is the only processing of the
input before lookup). -/
theorem weather_hit_exact_report (env : Clock) (city : String) (r : CityRecord)
    (h : cityGet CITY_DATA (normalize_city city) = some r) :
    get_weather env city = [("status", "success"), ("report", r.weather_report)] := by
  simp [get_weather, get_weather_t, h]

/-- Witness for C1 at the mixed-case, space-bearing input `"New York"`. -/
theorem weather_hit_exact_report_check :
    get_weather tickClock "New York" =
      [("status", "success"),
       ("report", "The weather in New York is sunny with a temperature of 45°F.")] :=
  weather_hit_exact_report tickClock "New York"
    ⟨"New York",
     "The weather in New York is sunny with a temperature of 45°F.",
     "America/New_York"⟩ (by decide)

/-- Claim C2: for every input whose normalized form is a table key, when the
record's timezone resolves and the clock is readable (the oracle returns the
current local hour and minute), `get_current_time` returns the success
dictionary whose report is exactly the sentence combining the record's
`display_name` with the 24-hour `HH:MM` rendering of that time. -/
theorem time_hit_exact_report (env : Clock) (city : String) (r : CityRecord)
    (h m : Nat) (hr : cityGet CITY_DATA (normalize_city city) = some r)
    (hclk : env.nowIn r.timezone = Except.ok (h, m)) :
    get_current_time env city =
      [("status", "success"),
       ("report",
        "The current time in " ++ r.display_name ++ " is " ++ fmtHM h m ++ ".")] := by
  simp [get_current_time, get_current_time_t, hr, hclk]

/-- Witness for C2 at `"Tokyo"` under a clock reading 9:05 in every zone. -/
theorem time_hit_exact_report_check :
    get_current_time tickClock "Tokyo" =
      [("status", "success"), ("report", "The current time in Tokyo is 09:05.")] :=
  (time_hit_exact_report tickClock "Tokyo"
    ⟨"Tokyo",
     "Tokyo is experiencing light rain and a temperature of 72°F.",
     "Asia/Tokyo"⟩ 9 5 (by decide) rfl).trans (by decide)

/-- Claim C3: for every input whose normalized form is not a table key, both
tools return the error dictionary with a message containing the original,
non-normalized input text verbatim. -/
theorem miss_message_names_input (env : Clock) (city : String)
    (h : cityGet CITY_DATA (normalize_city city) = none) :
    (∃ a b, get_weather env city =
      [("status", "error"), ("error_message", a ++ city ++ b)]) ∧
    (∃ a b, get_current_time env city =
      [("status", "error"), ("error_message", a ++ city ++ b)]) :=
  miss_both env city h

/-- Witness for C3 at the unsupported city `"Paris"`. -/
theorem miss_message_names_input_check :
    (∃ a b, get_weather tickClock "Paris" =
      [("status", "error"), ("error_message", a ++ "Paris" ++ b)]) ∧
    (∃ a b, get_current_time tickClock "Paris" =
      [("status", "error"), ("error_message", a ++ "Paris" ++ b)]) :=
  miss_message_names_input tickClock "Paris" (by decide)

/-- Claim C4: on a table hit, if timezone resolution or the clock read fails
(the oracle returns the exception message `e`), `get_current_time` converts
the failure into the error dictionary — it never escapes — and the message
embeds both the original input text and the failure reason `e`. -/
theorem tz_failure_reported (env : Clock) (city : String) (r : CityRecord)
    (e : String) (hr : cityGet CITY_DATA (normalize_city city) = some r)
    (he : env.nowIn r.timezone = Except.error e) :
    get_current_time env city =
      [("status", "error"),
       ("error_message",
        "Could not retrieve time for \x27" ++ city ++ "\x27. Reason: " ++ e)] := by
  simp [get_current_time, get_current_time_t, hr, he]

/-- Witness for C4 at `"London"` under a clock whose reads always raise. -/
theorem tz_failure_reported_check :
    get_current_time downClock "London" =
      [("status", "error"),
       ("error_message",
        "Could not retrieve time for \x27London\x27. Reason: clock unavailable")] :=
  (tz_failure_reported downClock "London"
    ⟨"London",
     "It\x27s cloudy in London with a temperature of 55°F.",
     "Europe/London"⟩ "clock unavailable" (by decide) rfl).trans (by decide)

/-- Claim C5: every value either tool returns, on every input, has one of
exactly two shapes: status `"success"` with a `"report"` string, or status
`"error"` with an `"error_message"` string. -/
theorem result_shape (env : Clock) (city : String) :
    ((∃ r, get_weather env city = [("status", "success"), ("report", r)]) ∨
     (∃ m, get_weather env city = [("status", "error"), ("error_message", m)])) ∧
    ((∃ r, get_current_time env city = [("status", "success"), ("report", r)]) ∨
     (∃ m, get_current_time env city =
       [("status", "error"), ("error_message", m)])) := by
  constructor
  · cases h : cityGet CITY_DATA (normalize_city city) with
    | some r =>
        exact Or.inl ⟨r.weather_report, by simp [get_weather, get_weather_t, h]⟩
    | none =>
        exact Or.inr
          ⟨"Sorry, I don\x27t have weather information for \x27" ++ city ++ "\x27.",
           by simp [get_weather, get_weather_t, h]⟩
  · cases h : cityGet CITY_DATA (normalize_city city) with
    | none =>
        exact Or.inr
          ⟨"Sorry, I don\x27t have timezone information for \x27" ++ city ++ "\x27.",
           by simp [get_current_time, get_current_time_t, h]⟩
    | some r =>
        cases hc : env.nowIn r.timezone with
        | ok p =>
            obtain ⟨hh, mm⟩ := p
            exact Or.inl
              ⟨"The current time in " ++ r.display_name ++ " is " ++
                 fmtHM hh mm ++ ".",
               by simp [get_current_time, get_current_time_t, h, hc]⟩
        | error e =>
            exact Or.inr
              ⟨"Could not retrieve time for \x27" ++ city ++ "\x27. Reason: " ++ e,
               by simp [get_current_time, get_current_time_t, h, hc]⟩

/-- Claim C6: on the empty-string input both tools return the error
dictionary; normalization is a total function of the input in this
embedding, so neither call can raise. -/
theorem empty_input_errors (env : Clock) :
    get_weather env "" =
      [("status", "error"),
       ("error_message", "Sorry, I don\x27t have weather information for \x27\x27.")] ∧
    get_current_time env "" =
      [("status", "error"),
       ("error_message", "Sorry, I don\x27t have timezone information for \x27\x27.")] :=
  ⟨rfl, rfl⟩

/-- Claim C7: the table's keys are unique, and no sequence of tool calls,
with any inputs and any clock behaviour, changes the table: after any run it
still equals the initial `CITY_DATA` literal, record for record. -/
theorem table_unique_keys_immutable :
    (CITY_DATA.map Prod.fst).Nodup ∧
      ∀ cs : List ToolCall, runCalls CITY_DATA cs = CITY_DATA :=
  ⟨by decide, fun cs => runCalls_eq CITY_DATA cs⟩

/-- Claim C8: `get_weather` is a pure function of its input string and the
fixed table: its result is byte-identical across any two clock/timezone
environments, i.e. it does not depend on the clock or timezone database. -/
theorem weather_independent_of_clock (env1 env2 : Clock) (city : String) :
    get_weather env1 city = get_weather env2 city := rfl

/-- Claim C9: `get_weather` succeeds exactly when `get_current_time` does
not return its lookup-miss error: both tools normalize identically and read
the same table, every record of which carries both fields, so their hit/miss
domains coincide. -/
theorem hit_domains_coincide (env : Clock) (city : String) :
    (∃ r, get_weather env city = [("status", "success"), ("report", r)]) ↔
      get_current_time env city ≠
        [("status", "error"),
         ("error_message",
          "Sorry, I don\x27t have timezone information for \x27" ++ city ++ "\x27.")] := by
  cases h : cityGet CITY_DATA (normalize_city city) with
  | none =>
      have hw : get_weather env city =
          [("status", "error"),
           ("error_message",
            "Sorry, I don\x27t have weather information for \x27" ++ city ++ "\x27.")] := by
        simp [get_weather, get_weather_t, h]
      have ht : get_current_time env city =
          [("status", "error"),
           ("error_message",
            "Sorry, I don\x27t have timezone information for \x27" ++ city ++ "\x27.")] := by
        simp [get_current_time, get_current_time_t, h]
      rw [hw, ht]
      constructor
      · rintro ⟨r, hr⟩
        exact absurd hr (err_ne_succ _ _)
      · intro hne
        exact absurd rfl hne
  | some r =>
      have hw : get_weather env city =
          [("status", "success"), ("report", r.weather_report)] := by
        simp [get_weather, get_weather_t, h]
      constructor
      · intro _
        cases hc : env.nowIn r.timezone with
        | ok p =>
            obtain ⟨hh, mm⟩ := p
            have ht : get_current_time env city =
                [("status", "success"),
                 ("report",
                  "The current time in " ++ r.display_name ++ " is " ++
                    fmtHM hh mm ++ ".")] := by
              simp [get_current_time, get_current_time_t, h, hc]
            rw [ht]
            intro hEq
            exact absurd hEq.symm (err_ne_succ _ _)
        | error e =>
            have ht : get_current_time env city =
                [("status", "error"),
                 ("error_message",
                  "Could not retrieve time for \x27" ++ city ++ "\x27. Reason: " ++ e)] := by
              simp [get_current_time, get_current_time_t, h, hc]
            rw [ht]
            intro hEq
            injection hEq with _ h2
            injection h2 with h3 _
            injection h3 with _ h4
            exact absurd h4 (could_ne_miss_msg city e)
      · intro _
        exact ⟨r.weather_report, hw⟩

/-- Claim C10: a non-empty all-space input normalizes to the empty key,
which is not in the table, so both tools return the error dictionary whose
message embeds the original all-space input verbatim. -/
theorem all_space_input_errors (env : Clock) (city : String)
    (_hne : city ≠ "") (hsp : ∀ c ∈ city.data, c = ' ') :
    normalize_city city = "" ∧
    (∃ a b, get_weather env city =
      [("status", "error"), ("error_message", a ++ city ++ b)]) ∧
    (∃ a b, get_current_time env city =
      [("status", "error"), ("error_message", a ++ city ++ b)]) := by
  have hn : normalize_city city = "" := all_spaces_normalize city hsp
  have hm : cityGet CITY_DATA (normalize_city city) = none := by
    rw [hn]; decide
  exact ⟨hn, miss_both env city hm⟩

/-- Witness for C10 at the three-space input. -/
theorem all_space_input_errors_check :
    normalize_city "   " = "" ∧
    (∃ a b, get_weather tickClock "   " =
      [("status", "error"), ("error_message", a ++ "   " ++ b)]) ∧
    (∃ a b, get_current_time tickClock "   " =
      [("status", "error"), ("error_message", a ++ "   " ++ b)]) :=
  all_space_input_errors tickClock "   " (by decide) (by decide)
